import Mathlib

/-!
Shallow embedding of the BirthdayLove picture-frame scene component.

The component loads a 3D frame model and an image texture, computes the
image plane's layout from the model's bounding box, animates the group's
pose toward either a camera-front target (active) or a table target
(inactive, with hover lift), and handles pointer events that mutate the
hover flag and request toggles of the externally owned active flag.

Real-number (JS float) arithmetic is modelled over the reals.  External
inputs (camera pose, camera forward direction, bounding-box size/center,
elapsed delta time) are parameters of the embedded functions.
-/

/-- A 3D vector with real components, modelling a three.js Vector3. -/
@[ext] structure Vec3 where
  x : ℝ
  y : ℝ
  z : ℝ

/-- A quaternion with real components, modelling a three.js Quaternion. -/
@[ext] structure Quat where
  x : ℝ
  y : ℝ
  z : ℝ
  w : ℝ

/-- Vector3.add: componentwise sum. -/
def Vec3.add (a b : Vec3) : Vec3 :=
  ⟨a.x + b.x, a.y + b.y, a.z + b.z⟩

/-- Vector3.multiplyScalar. -/
def Vec3.multiplyScalar (a : Vec3) (s : ℝ) : Vec3 :=
  ⟨a.x * s, a.y * s, a.z * s⟩

/-- Vector3.lerp: each component moves by (target - current) * alpha. -/
def Vec3.lerp (a v : Vec3) (alpha : ℝ) : Vec3 :=
  ⟨a.x + (v.x - a.x) * alpha, a.y + (v.y - a.y) * alpha, a.z + (v.z - a.z) * alpha⟩

/-- Quaternion.length: Euclidean norm of the four components. -/
noncomputable def Quat.length (q : Quat) : ℝ :=
  Real.sqrt (q.x * q.x + q.y * q.y + q.z * q.z + q.w * q.w)

/-- Quaternion.normalize: scale to unit length; a zero quaternion becomes (0,0,0,1). -/
noncomputable def Quat.normalize (q : Quat) : Quat :=
  let l := q.length
  if l = 0 then ⟨0, 0, 0, 1⟩ else ⟨q.x / l, q.y / l, q.z / l, q.w / l⟩

/-- JavaScript Number.EPSILON = 2^(-52), used by three.js slerp. -/
noncomputable def numberEpsilon : ℝ := (2 : ℝ) ^ (-52 : ℤ)

/-- Two-argument arctangent, Math.atan2 (y, x) modelled as the argument of x + y i. -/
noncomputable def atan2 (y x : ℝ) : ℝ := Complex.arg ⟨x, y⟩

/-- Quaternion.slerp of three.js: spherical interpolation from q toward qb by t,
with early exits at t = 0 and t = 1, shortest-path sign flip, and a linear
fallback when the angle is numerically tiny. -/
noncomputable def Quat.slerp (q qb : Quat) (t : ℝ) : Quat :=
  if t = 0 then q
  else if t = 1 then qb
  else
    let cosHalfTheta0 := q.w * qb.w + q.x * qb.x + q.y * qb.y + q.z * qb.z
    let target : Quat := if cosHalfTheta0 < 0 then ⟨-qb.x, -qb.y, -qb.z, -qb.w⟩ else qb
    let cosHalfTheta := if cosHalfTheta0 < 0 then -cosHalfTheta0 else cosHalfTheta0
    if 1 ≤ cosHalfTheta then q
    else
      let sqrSinHalfTheta := 1 - cosHalfTheta * cosHalfTheta
      if sqrSinHalfTheta ≤ numberEpsilon then
        let s := 1 - t
        Quat.normalize ⟨s * q.x + t * target.x, s * q.y + t * target.y,
          s * q.z + t * target.z, s * q.w + t * target.w⟩
      else
        let sinHalfTheta := Real.sqrt sqrSinHalfTheta
        let halfTheta := atan2 sinHalfTheta cosHalfTheta
        let ratioA := Real.sin ((1 - t) * halfTheta) / sinHalfTheta
        let ratioB := Real.sin (t * halfTheta) / sinHalfTheta
        ⟨q.x * ratioA + target.x * ratioB, q.y * ratioA + target.y * ratioB,
          q.z * ratioA + target.z * ratioB, q.w * ratioA + target.w * ratioB⟩

/-- Quaternion.setFromEuler for the default XYZ rotation order. -/
noncomputable def Quat.setFromEuler (ex ey ez : ℝ) : Quat :=
  let c1 := Real.cos (ex / 2)
  let c2 := Real.cos (ey / 2)
  let c3 := Real.cos (ez / 2)
  let s1 := Real.sin (ex / 2)
  let s2 := Real.sin (ey / 2)
  let s3 := Real.sin (ez / 2)
  ⟨s1 * c2 * c3 + c1 * s2 * s3,
    c1 * s2 * c3 - s1 * c2 * s3,
    c1 * c2 * s3 + s1 * s2 * c3,
    c1 * c2 * c3 - s1 * s2 * s3⟩

/-- A pose: position plus orientation, the scene node's transform. -/
structure Pose where
  position : Vec3
  quaternion : Quat

/-- The mutable per-frame state: the group's pose and the reusable target
holders tmpPosition / tmpQuaternion of the component. -/
structure FrameState where
  group : Pose
  tmpPosition : Vec3
  tmpQuaternion : Quat

/-- DEFAULT_IMAGE_SCALE from the source. -/
noncomputable def DEFAULT_IMAGE_SCALE : ℝ × ℝ := (0.82, 0.82)

/-- CAMERA_DISTANCE from the source. -/
noncomputable def CAMERA_DISTANCE : ℝ := 1.5

/-- CAMERA_Y_FLOOR from the source. -/
noncomputable def CAMERA_Y_FLOOR : ℝ := 0.8

/-- HOVER_LIFT from the source. -/
noncomputable def HOVER_LIFT : ℝ := 0.05

/-- The memoized cameraOffset vector (0, -0.05, 0). -/
noncomputable def cameraOffset : Vec3 := ⟨0, -0.05, 0⟩

/-- The per-tick position blend factor 1 - Math.exp (-delta * 12). -/
noncomputable def lerpAlpha (delta : ℝ) : ℝ := 1 - Real.exp (-delta * 12)

/-- The per-tick orientation blend factor 1 - Math.exp (-delta * 10). -/
noncomputable def slerpAlpha (delta : ℝ) : ℝ := 1 - Real.exp (-delta * 10)

/-- The memoized defaultPosition: a Vector3 built from the tablePosition prop. -/
def defaultPosition (tablePosition : ℝ × ℝ × ℝ) : Vec3 :=
  ⟨tablePosition.1, tablePosition.2.1, tablePosition.2.2⟩

/-- The memoized defaultQuaternion: the quaternion of the Euler angles in the
tableRotation prop. -/
noncomputable def defaultQuaternion (tableRotation : ℝ × ℝ × ℝ) : Quat :=
  Quat.setFromEuler tableRotation.1 tableRotation.2.1 tableRotation.2.2

/-- One invocation of the useFrame callback.  positionTarget aliases
tmpPosition and rotationTarget aliases tmpQuaternion; the active branch
overwrites only the position target (the rotation target keeps its previous
contents), the inactive branch overwrites both; then the group's pose is
blended toward the targets with the exponential-decay factors. -/
noncomputable def useFrameTick (isActive isHovered : Bool)
    (cameraPosition cameraDirection : Vec3)
    (tableDefaultPosition : Vec3) (tableDefaultQuaternion : Quat)
    (delta : ℝ) (s : FrameState) : FrameState :=
  let positionTarget : Vec3 :=
    if isActive then
      let afterDirection :=
        Vec3.add cameraPosition (Vec3.multiplyScalar cameraDirection CAMERA_DISTANCE)
      let afterOffset := Vec3.add afterDirection cameraOffset
      if afterOffset.y < CAMERA_Y_FLOOR then
        { afterOffset with y := CAMERA_Y_FLOOR }
      else afterOffset
    else
      let tableTarget := tableDefaultPosition
      if isHovered then { tableTarget with y := tableTarget.y + HOVER_LIFT } else tableTarget
  let rotationTarget : Quat :=
    if isActive then s.tmpQuaternion else tableDefaultQuaternion
  { group :=
      { position := Vec3.lerp s.group.position positionTarget (lerpAlpha delta)
        quaternion := Quat.slerp s.group.quaternion rotationTarget (slerpAlpha delta) }
    tmpPosition := positionTarget
    tmpQuaternion := rotationTarget }

/-- The useEffect on defaultPosition / defaultQuaternion: copies both directly
into the group's transform. -/
def applyDefaultPoseEffect (tableDefaultPosition : Vec3)
    (tableDefaultQuaternion : Quat) (_g : Pose) : Pose :=
  { position := tableDefaultPosition, quaternion := tableDefaultQuaternion }

/-- scaledImage: an array imageScale is used as (x, y), a scalar is used for
both axes. -/
def scaledImage (imageScale : ℝ ⊕ ℝ × ℝ) : ℝ × ℝ :=
  match imageScale with
  | .inr pair => pair
  | .inl s => (s, s)

/-- The destructuring default of the imageScale prop: DEFAULT_IMAGE_SCALE. -/
noncomputable def resolveImageScale (imageScale : Option (ℝ ⊕ ℝ × ℝ)) : ℝ ⊕ ℝ × ℝ :=
  imageScale.getD (.inr DEFAULT_IMAGE_SCALE)

/-- imageOffset defaulted with the nullish-coalescing fallback [0, 0.05, -0.27]. -/
noncomputable def resolveImageOffset (imageOffset : Option (ℝ × ℝ × ℝ)) : ℝ × ℝ × ℝ :=
  imageOffset.getD (0, 0.05, -0.27)

/-- imageWidth = frameSize.x * imageScaleX. -/
def imageWidth (frameSize : Vec3) (scaled : ℝ × ℝ) : ℝ := frameSize.x * scaled.1

/-- imageHeight = frameSize.y * imageScaleY. -/
def imageHeight (frameSize : Vec3) (scaled : ℝ × ℝ) : ℝ := frameSize.y * scaled.2

/-- imagePosition: bounding-box center shifted componentwise by the offset. -/
def imagePosition (frameCenter : Vec3) (off : ℝ × ℝ × ℝ) : Vec3 :=
  ⟨frameCenter.x + off.1, frameCenter.y + off.2.1, frameCenter.z + off.2.2⟩

/-- The component's interaction state: the externally owned isActive prop and
the isHovered useState flag. -/
structure CState where
  isActive : Bool
  isHovered : Bool
deriving DecidableEq, Repr

/-- Events affecting the interaction state: the four pointer handlers, plus a
change of the isActive prop (which also runs the useEffect on isActive). -/
inductive PEvent where
  | pointerOver
  | pointerOut
  | pointerDown
  | click
  | setActive (b : Bool)
deriving DecidableEq, Repr

/-- The observable outcome of one event: the next interaction state, whether
the handler stopped propagation, and the ids passed to the onToggle callback. -/
structure StepResult where
  state : CState
  stoppedPropagation : Bool
  toggleCalls : List String
deriving DecidableEq, Repr

/-- One event step of the component.  pointerOver stops propagation and sets
isHovered only when not active; pointerOut stops propagation and clears
isHovered; pointerDown only stops propagation; click stops propagation and
calls onToggle with the component's id; a setActive prop change runs the
useEffect that clears isHovered whenever the new value is false. -/
def componentStep (id : String) (s : CState) : PEvent → StepResult
  | .pointerOver =>
      ⟨{ s with isHovered := if !s.isActive then true else s.isHovered }, true, []⟩
  | .pointerOut => ⟨{ s with isHovered := false }, true, []⟩
  | .pointerDown => ⟨s, true, []⟩
  | .click => ⟨s, true, [id]⟩
  | .setActive b =>
      ⟨{ isActive := b, isHovered := if !b then false else s.isHovered }, false, []⟩

/-- Run a list of events from a state, keeping only the interaction state. -/
def runEvents (id : String) (s : CState) : List PEvent → CState
  | [] => s
  | e :: rest => runEvents id (componentStep id s e).state rest

/-- The initial interaction state on mount: isHovered starts false
(useState false); isActive is whatever the owner passes. -/
def initialState (isActive : Bool) : CState := ⟨isActive, false⟩

/-- The props of the component that feed rendering logic, with the optional
ones as Options (defaults are applied inside render). -/
structure Props where
  id : String
  imageScale : Option (ℝ ⊕ ℝ × ℝ)
  imageOffset : Option (ℝ × ℝ × ℝ)
  imageInset : Option ℝ
  tablePosition : ℝ × ℝ × ℝ
  tableRotation : ℝ × ℝ × ℝ
  isActive : Bool

/-- Everything the component computes for rendering: the image plane layout,
the memoized table pose, the fixed nested rotations of the rendered tree, the
per-frame tick behaviour and the event handling behaviour. -/
structure RenderOutputs where
  imageWidth : ℝ
  imageHeight : ℝ
  imagePosition : Vec3
  tableDefaultPosition : Vec3
  tableDefaultQuaternion : Quat
  innerGroupRotation : Vec3
  imageMeshRotation : Vec3
  tick : Bool → Vec3 → Vec3 → ℝ → FrameState → FrameState
  handleEvent : CState → PEvent → StepResult

/-- The rendering computation of the component as a function of its props and
the loaded frame asset's bounding-box size and center.  The imageInset prop is
destructured with its default of 0.01 but feeds nothing. -/
noncomputable def render (p : Props) (frameSize frameCenter : Vec3) : RenderOutputs :=
  let _imageInset : ℝ := p.imageInset.getD 0.01
  let scaled := scaledImage (resolveImageScale p.imageScale)
  let off := resolveImageOffset p.imageOffset
  { imageWidth := imageWidth frameSize scaled
    imageHeight := imageHeight frameSize scaled
    imagePosition := imagePosition frameCenter off
    tableDefaultPosition := defaultPosition p.tablePosition
    tableDefaultQuaternion := defaultQuaternion p.tableRotation
    innerGroupRotation := ⟨0.04, 0, 0⟩
    imageMeshRotation := ⟨0.435, Real.pi, 0⟩
    tick := fun hovered camPos camDir delta s =>
      useFrameTick p.isActive hovered camPos camDir
        (defaultPosition p.tablePosition) (defaultQuaternion p.tableRotation) delta s
    handleEvent := fun s e => componentStep p.id s e }

/-- Nonnegativity of the exponential-decay blend factor for nonnegative time. -/
lemma one_sub_exp_nonneg {d k : ℝ} (hd : 0 ≤ d) (hk : 0 ≤ k) :
    0 ≤ 1 - Real.exp (-d * k) := by
  have h1 : Real.exp (-d * k) ≤ 1 := Real.exp_le_one_iff.mpr (by nlinarith)
  linarith

/-- The blend factor is always below 1 since the exponential is positive. -/
lemma one_sub_exp_lt_one (x : ℝ) : 1 - Real.exp x < 1 := by
  have := Real.exp_pos x
  linarith

/-- The blend factor tends to 1 as time tends to infinity. -/
lemma tendsto_one_sub_exp {k : ℝ} (hk : 0 < k) :
    Filter.Tendsto (fun d : ℝ => 1 - Real.exp (-d * k)) Filter.atTop (nhds 1) := by
  have h1 : Filter.Tendsto (fun d : ℝ => d * k) Filter.atTop Filter.atTop :=
    Filter.tendsto_id.atTop_mul_const hk
  have h2 : Filter.Tendsto (fun d : ℝ => Real.exp (-(d * k))) Filter.atTop (nhds 0) :=
    Real.tendsto_exp_neg_atTop_nhds_zero.comp h1
  have h3 : Filter.Tendsto (fun d : ℝ => 1 - Real.exp (-(d * k)))
      Filter.atTop (nhds (1 - 0)) := Filter.Tendsto.const_sub 1 h2
  simpa [neg_mul] using h3

/-- C1: on every frame tick with the active flag true, the computed position
target equals the camera position plus the camera forward direction scaled by
1.5 plus the offset (0, -0.05, 0), except that when the y of that sum is below
0.8 the target's y is set to exactly 0.8; the target's y is never below 0.8. -/
theorem active_target_tracks_camera_with_floor
    (camPos camDir tdp : Vec3) (tdq : Quat) (hovered : Bool) (delta : ℝ)
    (s : FrameState) :
    ((useFrameTick true hovered camPos camDir tdp tdq delta s).tmpPosition =
      (let raw : Vec3 := ⟨camPos.x + camDir.x * 1.5 + 0,
                          camPos.y + camDir.y * 1.5 + (-0.05),
                          camPos.z + camDir.z * 1.5 + 0⟩
       if raw.y < 0.8 then ⟨raw.x, 0.8, raw.z⟩ else raw)) ∧
    (0.8 : ℝ) ≤ (useFrameTick true hovered camPos camDir tdp tdq delta s).tmpPosition.y := by
  constructor
  · simp only [useFrameTick, Vec3.add, Vec3.multiplyScalar, cameraOffset,
      CAMERA_DISTANCE, CAMERA_Y_FLOOR, if_true]
  · simp only [useFrameTick, Vec3.add, Vec3.multiplyScalar, cameraOffset,
      CAMERA_DISTANCE, CAMERA_Y_FLOOR, if_true]
    split
    · exact le_refl _
    · next h => exact le_of_not_lt h

/-- C2: on every frame tick with the active flag false, the position target is
the table position lifted by 0.05 along y exactly when hovered, and the
rotation target is the quaternion derived from the tableRotation Euler
angles. -/
theorem inactive_target_table_pose
    (camPos camDir : Vec3) (tablePosition tableRotation : ℝ × ℝ × ℝ)
    (hovered : Bool) (delta : ℝ) (s : FrameState) :
    ((useFrameTick false hovered camPos camDir (defaultPosition tablePosition)
        (defaultQuaternion tableRotation) delta s).tmpPosition =
      if hovered then
        ⟨tablePosition.1, tablePosition.2.1 + 0.05, tablePosition.2.2⟩
      else ⟨tablePosition.1, tablePosition.2.1, tablePosition.2.2⟩) ∧
    (useFrameTick false hovered camPos camDir (defaultPosition tablePosition)
        (defaultQuaternion tableRotation) delta s).tmpQuaternion =
      Quat.setFromEuler tableRotation.1 tableRotation.2.1 tableRotation.2.2 := by
  constructor
  · cases hovered <;> simp [useFrameTick, defaultPosition, HOVER_LIFT]
  · simp [useFrameTick, defaultQuaternion]

/-- C3: for every delta ≥ 0 the position blend factor 1 - e^(-delta*12) and
the orientation blend factor 1 - e^(-delta*10) lie in [0, 1); at delta = 0
each factor is exactly 0 and a tick with delta = 0 leaves the group's pose
unchanged; as delta tends to infinity each factor tends to 1. -/
theorem smoothing_factors_bounded_and_converge :
    (∀ delta : ℝ, 0 ≤ delta →
      (0 ≤ lerpAlpha delta ∧ lerpAlpha delta < 1) ∧
      (0 ≤ slerpAlpha delta ∧ slerpAlpha delta < 1)) ∧
    (lerpAlpha 0 = 0 ∧ slerpAlpha 0 = 0) ∧
    (∀ (isActive isHovered : Bool) (camPos camDir tdp : Vec3) (tdq : Quat)
      (s : FrameState),
      (useFrameTick isActive isHovered camPos camDir tdp tdq 0 s).group = s.group) ∧
    Filter.Tendsto lerpAlpha Filter.atTop (nhds 1) ∧
    Filter.Tendsto slerpAlpha Filter.atTop (nhds 1) := by
  have hl0 : lerpAlpha 0 = 0 := by simp [lerpAlpha]
  have hs0 : slerpAlpha 0 = 0 := by simp [slerpAlpha]
  refine ⟨?_, ⟨hl0, hs0⟩, ?_, ?_, ?_⟩
  · intro delta hd
    exact ⟨⟨one_sub_exp_nonneg hd (by norm_num), one_sub_exp_lt_one _⟩,
      ⟨one_sub_exp_nonneg hd (by norm_num), one_sub_exp_lt_one _⟩⟩
  · intro isActive isHovered camPos camDir tdp tdq s
    simp [useFrameTick, hl0, hs0, Vec3.lerp, Quat.slerp]
  · exact (tendsto_one_sub_exp (k := 12) (by norm_num)).congr fun d => rfl
  · exact (tendsto_one_sub_exp (k := 10) (by norm_num)).congr fun d => rfl

/-- Witness for C3 at delta = 1: the hypothesis 0 ≤ 1 holds and both blend
factors at delta = 1 lie in [0, 1). -/
theorem smoothing_factors_witness :
    (0 : ℝ) ≤ 1 ∧
    (0 ≤ lerpAlpha 1 ∧ lerpAlpha 1 < 1) ∧
    (0 ≤ slerpAlpha 1 ∧ slerpAlpha 1 < 1) :=
  ⟨zero_le_one, (smoothing_factors_bounded_and_converge.1 1 zero_le_one).1,
    (smoothing_factors_bounded_and_converge.1 1 zero_le_one).2⟩

/-- C4: a frame tick with the active flag true leaves the orientation target
untouched: tmpQuaternion after the tick equals its value before the tick, for
every camera pose, table pose and delta. -/
theorem active_tick_preserves_rotation_target
    (hovered : Bool) (camPos camDir tdp : Vec3) (tdq : Quat) (delta : ℝ)
    (s : FrameState) :
    (useFrameTick true hovered camPos camDir tdp tdq delta s).tmpQuaternion =
      s.tmpQuaternion := by
  simp [useFrameTick]

/-- C5: the image plane is laid out as width = boxSize.x * scaleX and
height = boxSize.y * scaleY; a scalar imageScale is used for both axes; the
scale defaults to (0.82, 0.82); the position is the bounding-box center plus
the offset, which defaults to (0, 0.05, -0.27). -/
theorem image_layout_formulas
    (frameSize frameCenter : Vec3) (scaleProp : Option (ℝ ⊕ ℝ × ℝ))
    (offProp : Option (ℝ × ℝ × ℝ)) (s : ℝ) :
    imageWidth frameSize (scaledImage (resolveImageScale scaleProp)) =
      frameSize.x * (scaledImage (resolveImageScale scaleProp)).1 ∧
    imageHeight frameSize (scaledImage (resolveImageScale scaleProp)) =
      frameSize.y * (scaledImage (resolveImageScale scaleProp)).2 ∧
    scaledImage (.inl s) = (s, s) ∧
    scaledImage (resolveImageScale none) = (0.82, 0.82) ∧
    resolveImageOffset none = (0, 0.05, -0.27) ∧
    imagePosition frameCenter (resolveImageOffset offProp) =
      Vec3.add frameCenter
        ⟨(resolveImageOffset offProp).1, (resolveImageOffset offProp).2.1,
          (resolveImageOffset offProp).2.2⟩ := by
  refine ⟨rfl, rfl, rfl, ?_, ?_, ?_⟩
  · simp [scaledImage, resolveImageScale, DEFAULT_IMAGE_SCALE]
  · simp [resolveImageOffset]
  · simp [imagePosition, Vec3.add]

/-- C6: from any state that is hovered and active, a transition of the active
prop to false leaves the hovered flag false. -/
theorem hover_cleared_on_deactivation (id : String) (s : CState)
    (_hh : s.isHovered = true) (_ha : s.isActive = true) :
    ((componentStep id s (.setActive false)).state).isHovered = false := by
  simp [componentStep]

/-- Witness for C6: the state that is active and hovered, deactivated. -/
theorem hover_cleared_on_deactivation_witness :
    ((⟨true, true⟩ : CState).isHovered = true ∧
      (⟨true, true⟩ : CState).isActive = true) ∧
    ((componentStep "frame-1" ⟨true, true⟩ (.setActive false)).state).isHovered = false :=
  ⟨⟨rfl, rfl⟩, hover_cleared_on_deactivation "frame-1" ⟨true, true⟩ rfl rfl⟩

/-- C7 counterexample: starting from an inactive mount, a single pointer-over
event reaches a state that is inactive yet hovered, refuting the claimed
invariant that the hovered flag is false whenever the active flag is false. -/
theorem inactive_hover_counterexample :
    (runEvents "frame-1" (initialState false) [PEvent.pointerOver]).isActive = false ∧
    (runEvents "frame-1" (initialState false) [PEvent.pointerOver]).isHovered = true := by
  decide

/-- C7 (amended): hovered-implies-inactive does not hold as a state invariant;
what the component guarantees is that the hovered flag is false at mount and
immediately after every event that sets the active prop to false. -/
theorem hover_false_at_mount_and_after_deactivation :
    (∀ b : Bool, (initialState b).isHovered = false) ∧
    (∀ (id : String) (s : CState),
      ((componentStep id s (.setActive false)).state).isHovered = false) := by
  refine ⟨fun b => rfl, fun id s => ?_⟩
  simp [componentStep]

/-- C8: a click stops propagation, invokes onToggle with exactly this
component's id and changes no interaction state; a pointer-press stops
propagation, invokes nothing and changes no state; and no pointer handler
ever changes the active flag. -/
theorem click_and_pointer_down_behaviour (id : String) (s : CState) :
    (componentStep id s .click).stoppedPropagation = true ∧
    (componentStep id s .click).toggleCalls = [id] ∧
    (componentStep id s .click).state = s ∧
    (componentStep id s .pointerDown).stoppedPropagation = true ∧
    (componentStep id s .pointerDown).toggleCalls = [] ∧
    (componentStep id s .pointerDown).state = s ∧
    (componentStep id s .pointerOver).state.isActive = s.isActive ∧
    (componentStep id s .pointerOut).state.isActive = s.isActive :=
  ⟨rfl, rfl, rfl, rfl, rfl, rfl, rfl, rfl⟩

/-- C9: the imageInset prop influences no computed output: two renders that
differ only in imageInset (any two values, on the same frame asset) are
identical in every field, layout, pose targets, tick and event behaviour. -/
theorem imageInset_noninterference (p : Props) (i1 i2 : Option ℝ)
    (frameSize frameCenter : Vec3) :
    render { p with imageInset := i1 } frameSize frameCenter =
      render { p with imageInset := i2 } frameSize frameCenter := rfl

/-- C10: the effect on defaultPosition / defaultQuaternion writes the table
position and the quaternion of the tableRotation Euler angles into the scene
node in one step: the result is independent of the node's prior pose and
equals the table pose exactly, with no smoothing applied. -/
theorem mount_sets_table_pose (tablePosition tableRotation : ℝ × ℝ × ℝ)
    (g g2 : Pose) :
    applyDefaultPoseEffect (defaultPosition tablePosition)
        (defaultQuaternion tableRotation) g =
      { position := defaultPosition tablePosition,
        quaternion := defaultQuaternion tableRotation } ∧
    applyDefaultPoseEffect (defaultPosition tablePosition)
        (defaultQuaternion tableRotation) g =
      applyDefaultPoseEffect (defaultPosition tablePosition)
        (defaultQuaternion tableRotation) g2 :=
  ⟨rfl, rfl⟩
